import Mathlib

/-!
Shallow embedding of the ctbend pointing-model library
(src/ctbendbase/CTBendBase.py and src/ctbendbase/CTBend.py).

Python floats are modelled as real numbers, Python dictionaries as
association lists with first-match lookup, and raised Python exceptions
as the error side of the `Except` monad over a type naming the raised
exception class and its argument.
-/

/-- A Python value appearing in a configuration payload: a number, a
string, or a nested dictionary. -/
inductive PyVal where
  | num : ℝ → PyVal
  | str : String → PyVal
  | dict : List (String × PyVal) → PyVal

/-- A raised Python exception, tagged with its class and a descriptive
argument (for KeyError and AttributeError, the offending key or name). -/
inductive PyErr where
  | keyError : String → PyErr
  | typeError : String → PyErr
  | attributeError : String → PyErr
  | runtimeError : String → PyErr
deriving DecidableEq

/-- First-match lookup in a Python dictionary, modelled as an association
list (keys of an actual dict are unique; first match makes the model total
on every list). -/
def dictGet (d : List (String × PyVal)) (k : String) : Option PyVal :=
  match d with
  | [] => none
  | (k1, v) :: rest => if k1 = k then some v else dictGet rest k

/-- The state of a CTBendBase instance after construction.
CTBendBase.__init__ (CTBendBase.py lines 11-23) stores the payload as
`self.parameters` together with two constants irrelevant to the claims
(`deg2arcsec`, `_math`); it performs no validation and cannot raise. -/
structure CTBendState where
  parameters : List (String × PyVal)

/-- CTBendBase.__init__ as a (total) function building the stored state:
construction always succeeds, whatever the payload. -/
def CTBendBase.init (parameters : List (String × PyVal)) : CTBendState :=
  ⟨parameters⟩

/-- CTBendBase.model_parameters (CTBendBase.py lines 178-185): resolve
the payload to the flat mean mapping.  The `try ... except KeyError`
catches a missing "model" key, or a missing "mean" key inside the
"model" dict, and falls back to `parameters["mean"]`; subscripting a
non-dict value of "model" raises TypeError, which is not caught. -/
def CTBendBase.model_parameters (parameters : List (String × PyVal)) :
    Except PyErr PyVal :=
  match dictGet parameters "model" with
  | some (PyVal.dict d) =>
    match dictGet d "mean" with
    | some v => Except.ok v
    | none =>
      match dictGet parameters "mean" with
      | some v => Except.ok v
      | none => Except.error (PyErr.keyError "mean")
  | some _ => Except.error (PyErr.typeError "model value is not subscriptable")
  | none =>
    match dictGet parameters "mean" with
    | some v => Except.ok v
    | none => Except.error (PyErr.keyError "mean")

/-- Evaluation of `p[term]` on the resolved parameter mapping, used as a
number in `p[term] * term_dict[term]`: KeyError (naming the key) when the
key is missing, TypeError when the mapping is not a dict or the stored
value is not a number. -/
def paramLookup (p : PyVal) (k : String) : Except PyErr ℝ :=
  match p with
  | PyVal.dict d =>
    match dictGet d k with
    | some (PyVal.num x) => Except.ok x
    | some _ => Except.error (PyErr.typeError k)
    | none => Except.error (PyErr.keyError k)
  | _ => Except.error (PyErr.typeError k)

/-- The accumulation loop of CTBendBase._pointing_correction (CTBendBase.py
lines 82-84): `delta += p[term] * term_dict[term]`, iterating the term dict
in insertion order and aborting with the first raised exception. -/
def weightedSumFrom (p : PyVal) (acc : ℝ) : List (String × ℝ) → Except PyErr ℝ
  | [] => Except.ok acc
  | (k, c) :: rest =>
    match paramLookup p k with
    | Except.ok v => weightedSumFrom p (acc + v * c) rest
    | Except.error e => Except.error e

/-- np.radians: conversion of degrees to radians. -/
noncomputable def deg2rad (x : ℝ) : ℝ := x * (Real.pi / 180)

/-- CTBendBase._pointing_correction (CTBendBase.py lines 53-86),
parametrised by the two subclass term functions that
`self.azimuth_model_terms` / `self.elevation_model_terms` dispatch to at
runtime.  The altaz check comes first; then the payload is resolved, the
inputs converted to radians, the requested term dict evaluated, and the
weighted sum accumulated. -/
noncomputable def CTBendBase.pointing_correction
    (azimuth_model_terms elevation_model_terms : ℝ → ℝ → List (String × ℝ))
    (parameters : List (String × PyVal)) (az el : ℝ) (altaz : String) :
    Except PyErr ℝ :=
  if ¬(altaz = "azimuth" ∨ altaz = "elevation") then
    Except.error (PyErr.runtimeError
      "altaz argument must be either azimuth or elevation")
  else
    match CTBendBase.model_parameters parameters with
    | Except.error e => Except.error e
    | Except.ok p =>
      let az_rad := deg2rad az
      let el_rad := deg2rad el
      let term_dict :=
        if altaz = "azimuth" then azimuth_model_terms az_rad el_rad
        else elevation_model_terms az_rad el_rad
      weightedSumFrom p 0 term_dict

/-- CTBendBase.delta_azimuth (CTBendBase.py lines 140-153), parametrised by
the subclass term functions. -/
noncomputable def CTBendBase.delta_azimuth
    (azT elT : ℝ → ℝ → List (String × ℝ)) (self : CTBendState) (az el : ℝ) :
    Except PyErr ℝ :=
  CTBendBase.pointing_correction azT elT self.parameters az el "azimuth"

/-- CTBendBase.delta_elevation (CTBendBase.py lines 155-168), parametrised
by the subclass term functions. -/
noncomputable def CTBendBase.delta_elevation
    (azT elT : ℝ → ℝ → List (String × ℝ)) (self : CTBendState) (az el : ℝ) :
    Except PyErr ℝ :=
  CTBendBase.pointing_correction azT elT self.parameters az el "elevation"

/-- np.unique on a one-dimensional array of strings: the values sorted
lexicographically with duplicates removed.  The comparison is stated on
the character lists, which is the String order (String.le_iff_toList_le)
in an executable form. -/
def np_unique (l : List String) : List String :=
  (List.insertionSort (fun a b => a.toList ≤ b.toList) l).dedup

/-- CTBendBase.model_parameter_names (CTBendBase.py lines 170-176): keys of
the azimuth term dict at (0, 0), then keys of the elevation term dict at
(0, 0), passed through np.unique. -/
noncomputable def CTBendBase.model_parameter_names
    (azT elT : ℝ → ℝ → List (String × ℝ)) : List String :=
  np_unique (((azT 0 0).map Prod.fst) ++ ((elT 0 0).map Prod.fst))

/-- Value stored under a name in a term dict (`term_dict[term]`); defaults
to 0 on an absent name, which the development only uses at present names. -/
def coeff : List (String × ℝ) → String → ℝ
  | [], _ => 0
  | (k1, v) :: rest, k => if k1 = k then v else coeff rest k

/-- First term name, in dict insertion order, that is missing from the
resolved parameter dictionary: the name whose `p[term]` lookup raises the
KeyError that aborts the accumulation loop. -/
def firstMissingKey (d : List (String × PyVal)) :
    List (String × ℝ) → Option String
  | [] => none
  | (k, _) :: rest =>
    match dictGet d k with
    | none => some k
    | some _ => firstMissingKey d rest

/-- A parameter dictionary whose stored values are all numbers, as produced
by a calibration payload of name-to-value bindings. -/
def NumericDict (d : List (String × PyVal)) : Prop :=
  ∀ kv ∈ d, ∃ x, kv.2 = PyVal.num x

/-- CTBendBasic4.azimuth_model_terms (CTBend.py lines 43-54). -/
noncomputable def CTBendBasic4.azimuth_model_terms (az_rad el_rad : ℝ) :
    List (String × ℝ) :=
  [("IA", -1),
   ("AW", (-Real.cos az_rad) * Real.tan el_rad),
   ("AN", (-Real.sin az_rad) * Real.tan el_rad)]

/-- CTBendBasic4.azimuth_derivative_phi (CTBend.py lines 56-67). -/
noncomputable def CTBendBasic4.azimuth_derivative_phi (az_rad el_rad : ℝ) :
    List (String × ℝ) :=
  [("IA", 0),
   ("AW", Real.sin az_rad * Real.tan el_rad),
   ("AN", (-Real.cos az_rad) * Real.tan el_rad)]

/-- CTBendBasic4.azimuth_derivative_theta (CTBend.py lines 68-79). -/
noncomputable def CTBendBasic4.azimuth_derivative_theta (az_rad el_rad : ℝ) :
    List (String × ℝ) :=
  [("IA", 0),
   ("AW", (-Real.cos az_rad) / (Real.cos el_rad * Real.cos el_rad)),
   ("AN", (-Real.sin az_rad) / (Real.cos el_rad * Real.cos el_rad))]

/-- CTBendBasic4.elevation_model_terms (CTBend.py lines 80-90). -/
noncomputable def CTBendBasic4.elevation_model_terms (az_rad el_rad : ℝ) :
    List (String × ℝ) :=
  [("IE", 1),
   ("AW", -Real.sin az_rad),
   ("AN", -Real.cos az_rad)]

/-- CTBendBasic4.elevation_derivative_phi (CTBend.py lines 92-103). -/
noncomputable def CTBendBasic4.elevation_derivative_phi (az_rad el_rad : ℝ) :
    List (String × ℝ) :=
  [("IE", 0),
   ("AW", -Real.cos az_rad),
   ("AN", Real.sin az_rad)]

/-- CTBendBasic4.elevation_derivative_theta (CTBend.py lines 105-116). -/
noncomputable def CTBendBasic4.elevation_derivative_theta
    (az_rad el_rad : ℝ) : List (String × ℝ) :=
  [("IE", 0),
   ("AW", 0),
   ("AN", 0)]

/-- CTBendBasic8.azimuth_model_terms (CTBend.py lines 125-139). -/
noncomputable def CTBendBasic8.azimuth_model_terms (az_rad el_rad : ℝ) :
    List (String × ℝ) :=
  [("IA", -1),
   ("NPAE", -Real.tan el_rad),
   ("AW", (-Real.cos az_rad) * Real.tan el_rad),
   ("AN", (-Real.sin az_rad) * Real.tan el_rad),
   ("ACES", Real.sin az_rad),
   ("ACEC", Real.cos az_rad)]

/-- CTBendBasic8.azimuth_derivative_phi (CTBend.py lines 141-155). -/
noncomputable def CTBendBasic8.azimuth_derivative_phi (az_rad el_rad : ℝ) :
    List (String × ℝ) :=
  [("IA", 0),
   ("NPAE", 0),
   ("AW", Real.sin az_rad * Real.tan el_rad),
   ("AN", (-Real.cos az_rad) * Real.tan el_rad),
   ("ACES", Real.cos az_rad),
   ("ACEC", -Real.sin az_rad)]

/-- CTBendBasic8.azimuth_derivative_theta (CTBend.py lines 157-171). -/
noncomputable def CTBendBasic8.azimuth_derivative_theta (az_rad el_rad : ℝ) :
    List (String × ℝ) :=
  [("IA", 0),
   ("NPAE", (-1) / (Real.cos el_rad * Real.cos el_rad)),
   ("AW", (-Real.cos az_rad) / (Real.cos el_rad * Real.cos el_rad)),
   ("AN", (-Real.sin az_rad) / (Real.cos el_rad * Real.cos el_rad)),
   ("ACES", 0),
   ("ACEC", 0)]

/-- CTBendBasic8.elevation_model_terms (CTBend.py lines 173-184). -/
noncomputable def CTBendBasic8.elevation_model_terms (az_rad el_rad : ℝ) :
    List (String × ℝ) :=
  [("IE", 1),
   ("AW", -Real.sin az_rad),
   ("AN", -Real.cos az_rad),
   ("TF", Real.cos el_rad)]

/-- CTBendBasic8.elevation_derivative_phi (CTBend.py lines 186-198). -/
noncomputable def CTBendBasic8.elevation_derivative_phi (az_rad el_rad : ℝ) :
    List (String × ℝ) :=
  [("IE", 0),
   ("AW", -Real.cos az_rad),
   ("AN", Real.sin az_rad),
   ("TF", 0)]

/-- CTBendBasic8.elevation_derivative_theta (CTBend.py lines 200-212). -/
noncomputable def CTBendBasic8.elevation_derivative_theta
    (az_rad el_rad : ℝ) : List (String × ℝ) :=
  [("IE", 0),
   ("AW", 0),
   ("AN", 0),
   ("TF", -Real.sin el_rad)]

/-- CTBendBasic4.delta_azimuth: the inherited CTBendBase.delta_azimuth with
dispatch resolved to the CTBendBasic4 term functions. -/
noncomputable def CTBendBasic4.delta_azimuth (self : CTBendState)
    (az el : ℝ) : Except PyErr ℝ :=
  CTBendBase.delta_azimuth CTBendBasic4.azimuth_model_terms
    CTBendBasic4.elevation_model_terms self az el

/-- CTBendBasic4.delta_elevation: the inherited CTBendBase.delta_elevation
with dispatch resolved to the CTBendBasic4 term functions. -/
noncomputable def CTBendBasic4.delta_elevation (self : CTBendState)
    (az el : ℝ) : Except PyErr ℝ :=
  CTBendBase.delta_elevation CTBendBasic4.azimuth_model_terms
    CTBendBasic4.elevation_model_terms self az el

/-- CTBendBasic8.delta_azimuth: the inherited CTBendBase.delta_azimuth with
dispatch resolved to the CTBendBasic8 term functions. -/
noncomputable def CTBendBasic8.delta_azimuth (self : CTBendState)
    (az el : ℝ) : Except PyErr ℝ :=
  CTBendBase.delta_azimuth CTBendBasic8.azimuth_model_terms
    CTBendBasic8.elevation_model_terms self az el

/-- CTBendBasic8.delta_elevation: the inherited CTBendBase.delta_elevation
with dispatch resolved to the CTBendBasic8 term functions. -/
noncomputable def CTBendBasic8.delta_elevation (self : CTBendState)
    (az el : ℝ) : Except PyErr ℝ :=
  CTBendBase.delta_elevation CTBendBasic8.azimuth_model_terms
    CTBendBasic8.elevation_model_terms self az el

/-- CTBendBasic4.model_parameter_names: the inherited property with the
CTBendBasic4 term functions. -/
noncomputable def CTBendBasic4.model_parameter_names : List String :=
  CTBendBase.model_parameter_names CTBendBasic4.azimuth_model_terms
    CTBendBasic4.elevation_model_terms

/-- CTBendBasic8.model_parameter_names: the inherited property with the
CTBendBasic8 term functions. -/
noncomputable def CTBendBasic8.model_parameter_names : List String :=
  CTBendBase.model_parameter_names CTBendBasic8.azimuth_model_terms
    CTBendBasic8.elevation_model_terms

/-- A model object successfully constructed and returned by the factory,
tagged with its concrete class. -/
inductive ModelObj where
  | basic4 : CTBendState → ModelObj
  | basic8 : CTBendState → ModelObj

/-- The names getattr can resolve on the ctbendbase/CTBend.py module
object, i.e. the names visible to `getattr(sys.modules[__name__], ...)`.
They are the source-level bindings — the imported CTBendBase (line 1), the
imported sys (line 2), the two model classes and bending_factory itself —
together with the interpreter-injected module attributes: the instance
attributes set on import (`__name__`, `__doc__`, `__package__`,
`__loader__`, `__spec__`, `__file__`, `__cached__`, `__builtins__`) and
the methods and descriptors getattr finds on the module type and on
object.  Every entry other than the two model classes, called as
`attr(parameters=model_json)`, raises a TypeError: strings, None, dicts
and the loader/spec objects are not callable, bound methods, builtin
methods and the module type reject the unexpected `parameters` keyword,
the abstract CTBendBase cannot be instantiated, and the sys module is not
callable.  The exact reserved dunder surface varies slightly across
CPython versions (for example object gains `__getstate__` in 3.11); the
table lists the surface common to the supported versions, and the claim
statements below do not classify reserved dunder-shaped names outside
it. -/
def ctbend_module_attribute_names : List String :=
  ["CTBendBase", "sys", "CTBendBasic4", "CTBendBasic8", "bending_factory",
   "__builtins__", "__cached__", "__doc__", "__file__", "__loader__",
   "__name__", "__package__", "__spec__",
   "__class__", "__delattr__", "__dict__", "__dir__", "__eq__",
   "__format__", "__ge__", "__getattribute__", "__gt__", "__hash__",
   "__init__", "__init_subclass__", "__le__", "__lt__", "__ne__",
   "__new__", "__reduce__", "__reduce_ex__", "__repr__", "__setattr__",
   "__sizeof__", "__str__", "__subclasshook__"]

/-- A name of reserved dunder shape: leading and trailing double
underscore.  This is the shape of the interpreter-injected attribute
names, whose exact surface is a property of the CPython version rather
than of this repository; the factory claims assert the unknown-model
error only for names outside this shape. -/
def isDunderName (n : String) : Bool :=
  (n.toList.take 2 == ['_', '_']) && (n.toList.reverse.take 2 == ['_', '_'])

/-- bending_factory (CTBend.py lines 215-219): reads `model_json["name"]`
and calls `getattr(sys.modules[__name__], requested_model)(parameters=model_json)`.
A name bound to one of the two concrete model classes constructs that model
with the full payload stored unchanged.  Any other name resolvable on the
module — a non-model source binding (the abstract CTBendBase, the sys
module, bending_factory) or an interpreter-injected attribute such as
`__name__` — raises a TypeError when called this way (abstract
instantiation, object not callable, or unexpected keyword).  A name getattr
cannot resolve on the module makes getattr raise an AttributeError. -/
def bending_factory (model_json : List (String × PyVal)) :
    Except PyErr ModelObj :=
  match dictGet model_json "name" with
  | none => Except.error (PyErr.keyError "name")
  | some (PyVal.str requested_model) =>
    if requested_model = "CTBendBasic4" then
      Except.ok (ModelObj.basic4 (CTBendBase.init model_json))
    else if requested_model = "CTBendBasic8" then
      Except.ok (ModelObj.basic8 (CTBendBase.init model_json))
    else if requested_model ∈ ctbend_module_attribute_names then
      Except.error (PyErr.typeError requested_model)
    else
      Except.error (PyErr.attributeError requested_model)
  | some _ => Except.error (PyErr.typeError "attribute name must be string")

/-- The result object of one scipy.optimize.minimize call on a
two-dimensional problem: the best point found and the success flag. -/
structure OptimizeResult where
  x0 : ℝ
  x1 : ℝ
  success : Bool

/-- Attribute names that exist on a constructed CTBendBasic4/CTBendBasic8
instance: the instance attributes set by __init__ plus every method defined
in CTBendBase.py and CTBend.py.  The inverter loss function
(_telescope_pointing_inverter_loss_function) is a local function inside
invert_bending_model, not a method, so it is not among them. -/
def ctbendbase_attribute_names : List String :=
  ["parameters", "deg2arcsec", "_math", "name",
   "azimuth_model_terms", "azimuth_derivative_phi",
   "azimuth_derivative_theta", "elevation_model_terms",
   "elevation_derivative_phi", "elevation_derivative_theta",
   "modelname", "_pointing_correction",
   "delta_azimuth_derivative_phi", "delta_elevation_derivative_phi",
   "delta_azimuth_derivative_theta", "delta_elevation_derivative_theta",
   "delta_azimuth", "delta_elevation",
   "model_parameter_names", "model_parameters", "invert_bending_model"]

/-- The local loss function defined inside CTBendBase.invert_bending_model
(CTBendBase.py lines 199-207), closed over the delta functions of the instance:
`|az - az0 - delta_azimuth(az0, el0)| + |el - el0 - delta_elevation(az0, el0)|`. -/
noncomputable def CTBendBase.telescope_pointing_inverter_loss_function
    (deltaAz deltaEl : ℝ → ℝ → Except PyErr ℝ) (az el : ℝ) (x : ℝ × ℝ) :
    Except PyErr ℝ :=
  match deltaAz x.1 x.2 with
  | Except.error e => Except.error e
  | Except.ok da =>
    match deltaEl x.1 x.2 with
    | Except.error e => Except.error e
    | Except.ok de => Except.ok (|az - x.1 - da| + |el - x.2 - de|)

/-- The per-pair loop of CTBendBase.invert_bending_model (CTBendBase.py
lines 210-223).  scipy.optimize.minimize is external and is modelled as an
oracle mapping the method name, the minimized loss and the initial guess to
a result.  For each pair, Nelder-Mead runs on the local loss seeded at the
pair itself; if it reports non-success (`range_error` on line 211 is always
False), the fallback on line 218 first resolves the attribute
`self._telescope_pointing_inverter_loss_function`: when that name is not an
attribute of the instance the lookup raises an AttributeError, which
propagates and aborts the whole call; were it an attribute, L-BFGS-B would
rerun on it from the same initial guess.  The best point of the surviving result
is appended to the two output lists. -/
noncomputable def CTBendBase.invert_go
    (minimize : String → ((ℝ × ℝ) → Except PyErr ℝ) → (ℝ × ℝ) → OptimizeResult)
    (loss : ℝ → ℝ → (ℝ × ℝ) → Except PyErr ℝ) :
    List (ℝ × ℝ) → Except PyErr (List ℝ × List ℝ)
  | [] => Except.ok ([], [])
  | (az, el) :: rest =>
    let res := minimize "nelder-mead" (fun x => loss az el x) (az, el)
    let step : Except PyErr OptimizeResult :=
      if res.success = false then
        if "_telescope_pointing_inverter_loss_function" ∈
            ctbendbase_attribute_names then
          Except.ok (minimize "L-BFGS-B" (fun x => loss az el x) (az, el))
        else
          Except.error
            (PyErr.attributeError "_telescope_pointing_inverter_loss_function")
      else Except.ok res
    match step with
    | Except.error e => Except.error e
    | Except.ok r =>
      match CTBendBase.invert_go minimize loss rest with
      | Except.error e => Except.error e
      | Except.ok (uaz, uel) => Except.ok (r.x0 :: uaz, r.x1 :: uel)

/-- CTBendBase.invert_bending_model (CTBendBase.py lines 193-225),
parametrised by the minimize oracle and by the delta functions of the instance
(which the local loss closes over). -/
noncomputable def CTBendBase.invert_bending_model
    (minimize : String → ((ℝ × ℝ) → Except PyErr ℝ) → (ℝ × ℝ) → OptimizeResult)
    (deltaAz deltaEl : ℝ → ℝ → Except PyErr ℝ)
    (azimuth elevation : List ℝ) : Except PyErr (List ℝ × List ℝ) :=
  CTBendBase.invert_go minimize
    (CTBendBase.telescope_pointing_inverter_loss_function deltaAz deltaEl)
    (azimuth.zip elevation)

/-! ### Helper lemmas -/

theorem dictGet_mem {d : List (String × PyVal)} {k : String} {v : PyVal}
    (h : dictGet d k = some v) : (k, v) ∈ d := by
  induction d with
  | nil => simp [dictGet] at h
  | cons kv rest ih =>
    obtain ⟨k1, v1⟩ := kv
    by_cases hk : k1 = k
    · subst hk
      simp [dictGet] at h
      subst h
      exact List.mem_cons_self _ _
    · simp [dictGet, hk] at h
      exact List.mem_cons_of_mem _ (ih h)

theorem paramLookup_missing {d : List (String × PyVal)} {k : String}
    (h : dictGet d k = none) :
    paramLookup (PyVal.dict d) k = Except.error (PyErr.keyError k) := by
  simp [paramLookup, h]

theorem paramLookup_num {d : List (String × PyVal)} {k : String} {x : ℝ}
    (h : dictGet d k = some (PyVal.num x)) :
    paramLookup (PyVal.dict d) k = Except.ok x := by
  simp [paramLookup, h]

theorem paramLookup_present {d : List (String × PyVal)} {k : String}
    {v : PyVal} (hnum : NumericDict d) (h : dictGet d k = some v) :
    ∃ x, v = PyVal.num x ∧ paramLookup (PyVal.dict d) k = Except.ok x := by
  obtain ⟨x, hx⟩ := hnum (k, v) (dictGet_mem h)
  have hv : v = PyVal.num x := hx
  exact ⟨x, hv, by simp [paramLookup, h, hv]⟩

theorem weightedSumFrom_cons_ok {p : PyVal} {k : String} {v : ℝ}
    (acc c : ℝ) (rest : List (String × ℝ))
    (hk : paramLookup p k = Except.ok v) :
    weightedSumFrom p acc ((k, c) :: rest) =
      weightedSumFrom p (acc + v * c) rest := by
  simp [weightedSumFrom, hk]

theorem weightedSumFrom_cons_error {p : PyVal} {k : String} {e : PyErr}
    (acc c : ℝ) (rest : List (String × ℝ))
    (hk : paramLookup p k = Except.error e) :
    weightedSumFrom p acc ((k, c) :: rest) = Except.error e := by
  simp [weightedSumFrom, hk]

theorem weightedSumFrom_error_of_firstMissing {d : List (String × PyVal)}
    {terms : List (String × ℝ)} {k : String}
    (hnum : NumericDict d) (h : firstMissingKey d terms = some k) (acc : ℝ) :
    weightedSumFrom (PyVal.dict d) acc terms =
      Except.error (PyErr.keyError k) := by
  induction terms generalizing acc with
  | nil => simp [firstMissingKey] at h
  | cons kc rest ih =>
    obtain ⟨k1, c1⟩ := kc
    cases hg : dictGet d k1 with
    | none =>
      rw [firstMissingKey, hg] at h
      cases h
      exact weightedSumFrom_cons_error acc c1 rest (paramLookup_missing hg)
    | some v =>
      rw [firstMissingKey, hg] at h
      obtain ⟨x, _, hpl⟩ := paramLookup_present hnum hg
      rw [weightedSumFrom_cons_ok acc c1 rest hpl]
      exact ih h _

theorem weightedSumFrom_ok_of_noMissing {d : List (String × PyVal)}
    {terms : List (String × ℝ)}
    (hnum : NumericDict d) (h : firstMissingKey d terms = none) (acc : ℝ) :
    ∃ s, weightedSumFrom (PyVal.dict d) acc terms = Except.ok s := by
  induction terms generalizing acc with
  | nil => exact ⟨acc, rfl⟩
  | cons kc rest ih =>
    obtain ⟨k1, c1⟩ := kc
    cases hg : dictGet d k1 with
    | none => rw [firstMissingKey, hg] at h; cases h
    | some v =>
      rw [firstMissingKey, hg] at h
      obtain ⟨x, _, hpl⟩ := paramLookup_present hnum hg
      rw [weightedSumFrom_cons_ok acc c1 rest hpl]
      exact ih h _

theorem pointing_correction_azimuth_eq
    (azT elT : ℝ → ℝ → List (String × ℝ))
    (params : List (String × PyVal)) (az el : ℝ) {p : PyVal}
    (hres : CTBendBase.model_parameters params = Except.ok p) :
    CTBendBase.pointing_correction azT elT params az el "azimuth" =
      weightedSumFrom p 0 (azT (deg2rad az) (deg2rad el)) := by
  simp [CTBendBase.pointing_correction, hres]

theorem pointing_correction_elevation_eq
    (azT elT : ℝ → ℝ → List (String × ℝ))
    (params : List (String × PyVal)) (az el : ℝ) {p : PyVal}
    (hres : CTBendBase.model_parameters params = Except.ok p) :
    CTBendBase.pointing_correction azT elT params az el "elevation" =
      weightedSumFrom p 0 (elT (deg2rad az) (deg2rad el)) := by
  simp [CTBendBase.pointing_correction, hres]

theorem pointing_correction_error_eq
    (azT elT : ℝ → ℝ → List (String × ℝ))
    (params : List (String × PyVal)) (az el : ℝ) {e : PyErr}
    (altaz : String) (haltaz : altaz = "azimuth" ∨ altaz = "elevation")
    (hres : CTBendBase.model_parameters params = Except.error e) :
    CTBendBase.pointing_correction azT elT params az el altaz =
      Except.error e := by
  simp [CTBendBase.pointing_correction, hres, haltaz]

theorem basic4_delta_azimuth_eval (self : CTBendState) {p : PyVal}
    (az el ia aw an : ℝ)
    (hres : CTBendBase.model_parameters self.parameters = Except.ok p)
    (hIA : paramLookup p "IA" = Except.ok ia)
    (hAW : paramLookup p "AW" = Except.ok aw)
    (hAN : paramLookup p "AN" = Except.ok an) :
    CTBendBasic4.delta_azimuth self az el =
      Except.ok (ia * (-1)
        + aw * ((-Real.cos (deg2rad az)) * Real.tan (deg2rad el))
        + an * ((-Real.sin (deg2rad az)) * Real.tan (deg2rad el))) := by
  rw [CTBendBasic4.delta_azimuth, CTBendBase.delta_azimuth,
    pointing_correction_azimuth_eq _ _ _ _ _ hres,
    CTBendBasic4.azimuth_model_terms,
    weightedSumFrom_cons_ok _ _ _ hIA,
    weightedSumFrom_cons_ok _ _ _ hAW,
    weightedSumFrom_cons_ok _ _ _ hAN,
    weightedSumFrom]
  congr 1
  ring

theorem basic4_delta_elevation_eval (self : CTBendState) {p : PyVal}
    (az el ie aw an : ℝ)
    (hres : CTBendBase.model_parameters self.parameters = Except.ok p)
    (hIE : paramLookup p "IE" = Except.ok ie)
    (hAW : paramLookup p "AW" = Except.ok aw)
    (hAN : paramLookup p "AN" = Except.ok an) :
    CTBendBasic4.delta_elevation self az el =
      Except.ok (ie * 1
        + aw * (-Real.sin (deg2rad az))
        + an * (-Real.cos (deg2rad az))) := by
  rw [CTBendBasic4.delta_elevation, CTBendBase.delta_elevation,
    pointing_correction_elevation_eq _ _ _ _ _ hres,
    CTBendBasic4.elevation_model_terms,
    weightedSumFrom_cons_ok _ _ _ hIE,
    weightedSumFrom_cons_ok _ _ _ hAW,
    weightedSumFrom_cons_ok _ _ _ hAN,
    weightedSumFrom]
  congr 1
  ring

theorem basic8_delta_azimuth_eval (self : CTBendState) {p : PyVal}
    (az el ia npae aw an aces acec : ℝ)
    (hres : CTBendBase.model_parameters self.parameters = Except.ok p)
    (hIA : paramLookup p "IA" = Except.ok ia)
    (hNPAE : paramLookup p "NPAE" = Except.ok npae)
    (hAW : paramLookup p "AW" = Except.ok aw)
    (hAN : paramLookup p "AN" = Except.ok an)
    (hACES : paramLookup p "ACES" = Except.ok aces)
    (hACEC : paramLookup p "ACEC" = Except.ok acec) :
    CTBendBasic8.delta_azimuth self az el =
      Except.ok (ia * (-1)
        + npae * (-Real.tan (deg2rad el))
        + aw * ((-Real.cos (deg2rad az)) * Real.tan (deg2rad el))
        + an * ((-Real.sin (deg2rad az)) * Real.tan (deg2rad el))
        + aces * Real.sin (deg2rad az)
        + acec * Real.cos (deg2rad az)) := by
  rw [CTBendBasic8.delta_azimuth, CTBendBase.delta_azimuth,
    pointing_correction_azimuth_eq _ _ _ _ _ hres,
    CTBendBasic8.azimuth_model_terms,
    weightedSumFrom_cons_ok _ _ _ hIA,
    weightedSumFrom_cons_ok _ _ _ hNPAE,
    weightedSumFrom_cons_ok _ _ _ hAW,
    weightedSumFrom_cons_ok _ _ _ hAN,
    weightedSumFrom_cons_ok _ _ _ hACES,
    weightedSumFrom_cons_ok _ _ _ hACEC,
    weightedSumFrom]
  congr 1
  ring

theorem basic8_delta_elevation_eval (self : CTBendState) {p : PyVal}
    (az el ie aw an tf : ℝ)
    (hres : CTBendBase.model_parameters self.parameters = Except.ok p)
    (hIE : paramLookup p "IE" = Except.ok ie)
    (hAW : paramLookup p "AW" = Except.ok aw)
    (hAN : paramLookup p "AN" = Except.ok an)
    (hTF : paramLookup p "TF" = Except.ok tf) :
    CTBendBasic8.delta_elevation self az el =
      Except.ok (ie * 1
        + aw * (-Real.sin (deg2rad az))
        + an * (-Real.cos (deg2rad az))
        + tf * Real.cos (deg2rad el)) := by
  rw [CTBendBasic8.delta_elevation, CTBendBase.delta_elevation,
    pointing_correction_elevation_eq _ _ _ _ _ hres,
    CTBendBasic8.elevation_model_terms,
    weightedSumFrom_cons_ok _ _ _ hIE,
    weightedSumFrom_cons_ok _ _ _ hAW,
    weightedSumFrom_cons_ok _ _ _ hAN,
    weightedSumFrom_cons_ok _ _ _ hTF,
    weightedSumFrom]
  congr 1
  ring

theorem hasDerivAt_neg_cos_mul_tan (az el : ℝ) :
    HasDerivAt (fun a => (-Real.cos a) * Real.tan el)
      (Real.sin az * Real.tan el) az := by
  have h := (Real.hasDerivAt_cos az).neg.mul_const (Real.tan el)
  convert h using 1
  ring

theorem hasDerivAt_neg_sin_mul_tan (az el : ℝ) :
    HasDerivAt (fun a => (-Real.sin a) * Real.tan el)
      ((-Real.cos az) * Real.tan el) az :=
  (Real.hasDerivAt_sin az).neg.mul_const (Real.tan el)

theorem hasDerivAt_const_mul_tan (c el : ℝ) (h : Real.cos el ≠ 0) :
    HasDerivAt (fun e => c * Real.tan e)
      (c / (Real.cos el * Real.cos el)) el := by
  have h2 := (Real.hasDerivAt_tan h).const_mul c
  convert h2 using 1
  ring

theorem hasDerivAt_neg_tan (el : ℝ) (h : Real.cos el ≠ 0) :
    HasDerivAt (fun e => -Real.tan e)
      ((-1) / (Real.cos el * Real.cos el)) el := by
  have h2 := (Real.hasDerivAt_tan h).neg
  convert h2 using 1
  ring

theorem hasDerivAt_neg_sin (az : ℝ) :
    HasDerivAt (fun a => -Real.sin a) (-Real.cos az) az :=
  (Real.hasDerivAt_sin az).neg

theorem hasDerivAt_neg_cos (az : ℝ) :
    HasDerivAt (fun a => -Real.cos a) (Real.sin az) az := by
  have h := (Real.hasDerivAt_cos az).neg
  convert h using 1
  ring

theorem hasDerivAt_sin_fun (az : ℝ) :
    HasDerivAt (fun a => Real.sin a) (Real.cos az) az :=
  Real.hasDerivAt_sin az

theorem hasDerivAt_cos_fun (az : ℝ) :
    HasDerivAt (fun a => Real.cos a) (-Real.sin az) az :=
  Real.hasDerivAt_cos az

/-! ### Claim theorems -/

/-- C1: for every CTBendBasic4 model whose resolved parameter mapping
contains IA, AW and AN, delta_azimuth(az, el) equals
IA·(-1) + AW·(-cos(az_rad)·tan(el_rad)) + AN·(-sin(az_rad)·tan(el_rad)),
where az_rad and el_rad are the radian conversions of the degree inputs and
the result is the weighted sum in degrees.  The concrete scenario IA=0.1,
AW=AN=IE=0 at (az=0°, el=45°) yielding exactly -0.1° is the witness. -/
theorem claim_C1_delta_azimuth_formula (self : CTBendState) {p : PyVal}
    (az el ia aw an : ℝ)
    (hres : CTBendBase.model_parameters self.parameters = Except.ok p)
    (hIA : paramLookup p "IA" = Except.ok ia)
    (hAW : paramLookup p "AW" = Except.ok aw)
    (hAN : paramLookup p "AN" = Except.ok an) :
    CTBendBasic4.delta_azimuth self az el =
      Except.ok (ia * (-1)
        + aw * ((-Real.cos (deg2rad az)) * Real.tan (deg2rad el))
        + an * ((-Real.sin (deg2rad az)) * Real.tan (deg2rad el))) :=
  basic4_delta_azimuth_eval self az el ia aw an hres hIA hAW hAN

/-- Witness for C1: the Basic-4 scenario IA=0.1, AW=0, AN=0, IE=0 evaluated
at (az=0°, el=45°) returns exactly -0.1°. -/
theorem claim_C1_witness :
    CTBendBasic4.delta_azimuth
      (CTBendBase.init [("mean", PyVal.dict
        [("IA", PyVal.num 0.1), ("AW", PyVal.num 0),
         ("AN", PyVal.num 0), ("IE", PyVal.num 0)])]) 0 45 =
      Except.ok (-0.1) := by
  have h := claim_C1_delta_azimuth_formula
    (CTBendBase.init [("mean", PyVal.dict
      [("IA", PyVal.num 0.1), ("AW", PyVal.num 0),
       ("AN", PyVal.num 0), ("IE", PyVal.num 0)])])
    0 45 0.1 0 0 rfl rfl rfl rfl
  rw [h]
  congr 1
  ring

/-- C3: on a parameter mapping carrying IA, IE, AW, AN and mapping NPAE,
ACES, ACEC and TF to zero, the delta_azimuth and delta_elevation
of CTBendBasic8 coincide with those of CTBendBasic4 on every input pair. -/
theorem claim_C3_basic8_reduces_to_basic4 (self : CTBendState) {p : PyVal}
    (az el ia ie aw an : ℝ)
    (hres : CTBendBase.model_parameters self.parameters = Except.ok p)
    (hIA : paramLookup p "IA" = Except.ok ia)
    (hIE : paramLookup p "IE" = Except.ok ie)
    (hAW : paramLookup p "AW" = Except.ok aw)
    (hAN : paramLookup p "AN" = Except.ok an)
    (hNPAE : paramLookup p "NPAE" = Except.ok 0)
    (hACES : paramLookup p "ACES" = Except.ok 0)
    (hACEC : paramLookup p "ACEC" = Except.ok 0)
    (hTF : paramLookup p "TF" = Except.ok 0) :
    CTBendBasic8.delta_azimuth self az el = CTBendBasic4.delta_azimuth self az el
    ∧ CTBendBasic8.delta_elevation self az el =
        CTBendBasic4.delta_elevation self az el := by
  constructor
  · rw [basic8_delta_azimuth_eval self az el ia 0 aw an 0 0
        hres hIA hNPAE hAW hAN hACES hACEC,
      basic4_delta_azimuth_eval self az el ia aw an hres hIA hAW hAN]
    congr 1
    ring
  · rw [basic8_delta_elevation_eval self az el ie aw an 0
        hres hIE hAW hAN hTF,
      basic4_delta_elevation_eval self az el ie aw an hres hIE hAW hAN]
    congr 1
    ring

/-- Witness for C3: a concrete Basic-8 payload with IA=1, IE=2, AW=3, AN=4
and NPAE=ACES=ACEC=TF=0 produces the same corrections as Basic-4 at
(az=10°, el=20°). -/
theorem claim_C3_witness :
    CTBendBasic8.delta_azimuth
      (CTBendBase.init [("mean", PyVal.dict
        [("IA", PyVal.num 1), ("IE", PyVal.num 2), ("AW", PyVal.num 3),
         ("AN", PyVal.num 4), ("NPAE", PyVal.num 0), ("ACES", PyVal.num 0),
         ("ACEC", PyVal.num 0), ("TF", PyVal.num 0)])]) 10 20 =
    CTBendBasic4.delta_azimuth
      (CTBendBase.init [("mean", PyVal.dict
        [("IA", PyVal.num 1), ("IE", PyVal.num 2), ("AW", PyVal.num 3),
         ("AN", PyVal.num 4), ("NPAE", PyVal.num 0), ("ACES", PyVal.num 0),
         ("ACEC", PyVal.num 0), ("TF", PyVal.num 0)])]) 10 20 := by
  exact (claim_C3_basic8_reduces_to_basic4
    (CTBendBase.init [("mean", PyVal.dict
      [("IA", PyVal.num 1), ("IE", PyVal.num 2), ("AW", PyVal.num 3),
       ("AN", PyVal.num 4), ("NPAE", PyVal.num 0), ("ACES", PyVal.num 0),
       ("ACEC", PyVal.num 0), ("TF", PyVal.num 0)])])
    10 20 1 2 3 4 rfl rfl rfl rfl rfl rfl rfl rfl rfl).1

/-- C2: for both CTBendBasic4 and CTBendBasic8, at every (az_rad, el_rad)
with el_rad not an odd multiple of pi/2, each coefficient returned by
azimuth_derivative_phi, azimuth_derivative_theta, elevation_derivative_phi
and elevation_derivative_theta is the exact partial derivative (with
respect to az_rad for phi, el_rad for theta) of the coefficient with the
same name returned by the corresponding azimuth_model_terms or
elevation_model_terms function. -/
theorem claim_C2_derivative_consistency (az el : ℝ)
    (h : ∀ n : ℤ, el ≠ (2 * n + 1) * Real.pi / 2) :
    (∀ k ∈ (CTBendBasic4.azimuth_derivative_phi az el).map Prod.fst,
      HasDerivAt (fun a => coeff (CTBendBasic4.azimuth_model_terms a el) k)
        (coeff (CTBendBasic4.azimuth_derivative_phi az el) k) az)
  ∧ (∀ k ∈ (CTBendBasic4.azimuth_derivative_theta az el).map Prod.fst,
      HasDerivAt (fun e => coeff (CTBendBasic4.azimuth_model_terms az e) k)
        (coeff (CTBendBasic4.azimuth_derivative_theta az el) k) el)
  ∧ (∀ k ∈ (CTBendBasic4.elevation_derivative_phi az el).map Prod.fst,
      HasDerivAt (fun a => coeff (CTBendBasic4.elevation_model_terms a el) k)
        (coeff (CTBendBasic4.elevation_derivative_phi az el) k) az)
  ∧ (∀ k ∈ (CTBendBasic4.elevation_derivative_theta az el).map Prod.fst,
      HasDerivAt (fun e => coeff (CTBendBasic4.elevation_model_terms az e) k)
        (coeff (CTBendBasic4.elevation_derivative_theta az el) k) el)
  ∧ (∀ k ∈ (CTBendBasic8.azimuth_derivative_phi az el).map Prod.fst,
      HasDerivAt (fun a => coeff (CTBendBasic8.azimuth_model_terms a el) k)
        (coeff (CTBendBasic8.azimuth_derivative_phi az el) k) az)
  ∧ (∀ k ∈ (CTBendBasic8.azimuth_derivative_theta az el).map Prod.fst,
      HasDerivAt (fun e => coeff (CTBendBasic8.azimuth_model_terms az e) k)
        (coeff (CTBendBasic8.azimuth_derivative_theta az el) k) el)
  ∧ (∀ k ∈ (CTBendBasic8.elevation_derivative_phi az el).map Prod.fst,
      HasDerivAt (fun a => coeff (CTBendBasic8.elevation_model_terms a el) k)
        (coeff (CTBendBasic8.elevation_derivative_phi az el) k) az)
  ∧ (∀ k ∈ (CTBendBasic8.elevation_derivative_theta az el).map Prod.fst,
      HasDerivAt (fun e => coeff (CTBendBasic8.elevation_model_terms az e) k)
        (coeff (CTBendBasic8.elevation_derivative_theta az el) k) el) := by
  have hcos : Real.cos el ≠ 0 := Real.cos_ne_zero_iff.mpr h
  refine ⟨?_, ?_, ?_, ?_, ?_, ?_, ?_, ?_⟩
  · intro k hk
    have hks : k = "IA" ∨ k = "AW" ∨ k = "AN" := by
      simpa [CTBendBasic4.azimuth_derivative_phi] using hk
    rcases hks with rfl | rfl | rfl
    · exact hasDerivAt_const az (-1 : ℝ)
    · exact hasDerivAt_neg_cos_mul_tan az el
    · exact hasDerivAt_neg_sin_mul_tan az el
  · intro k hk
    have hks : k = "IA" ∨ k = "AW" ∨ k = "AN" := by
      simpa [CTBendBasic4.azimuth_derivative_theta] using hk
    rcases hks with rfl | rfl | rfl
    · exact hasDerivAt_const el (-1 : ℝ)
    · exact hasDerivAt_const_mul_tan (-Real.cos az) el hcos
    · exact hasDerivAt_const_mul_tan (-Real.sin az) el hcos
  · intro k hk
    have hks : k = "IE" ∨ k = "AW" ∨ k = "AN" := by
      simpa [CTBendBasic4.elevation_derivative_phi] using hk
    rcases hks with rfl | rfl | rfl
    · exact hasDerivAt_const az (1 : ℝ)
    · exact hasDerivAt_neg_sin az
    · exact hasDerivAt_neg_cos az
  · intro k hk
    have hks : k = "IE" ∨ k = "AW" ∨ k = "AN" := by
      simpa [CTBendBasic4.elevation_derivative_theta] using hk
    rcases hks with rfl | rfl | rfl
    · exact hasDerivAt_const el (1 : ℝ)
    · exact hasDerivAt_const el (-Real.sin az)
    · exact hasDerivAt_const el (-Real.cos az)
  · intro k hk
    have hks : k = "IA" ∨ k = "NPAE" ∨ k = "AW" ∨ k = "AN" ∨
        k = "ACES" ∨ k = "ACEC" := by
      simpa [CTBendBasic8.azimuth_derivative_phi] using hk
    rcases hks with rfl | rfl | rfl | rfl | rfl | rfl
    · exact hasDerivAt_const az (-1 : ℝ)
    · exact hasDerivAt_const az (-Real.tan el)
    · exact hasDerivAt_neg_cos_mul_tan az el
    · exact hasDerivAt_neg_sin_mul_tan az el
    · exact hasDerivAt_sin_fun az
    · exact hasDerivAt_cos_fun az
  · intro k hk
    have hks : k = "IA" ∨ k = "NPAE" ∨ k = "AW" ∨ k = "AN" ∨
        k = "ACES" ∨ k = "ACEC" := by
      simpa [CTBendBasic8.azimuth_derivative_theta] using hk
    rcases hks with rfl | rfl | rfl | rfl | rfl | rfl
    · exact hasDerivAt_const el (-1 : ℝ)
    · exact hasDerivAt_neg_tan el hcos
    · exact hasDerivAt_const_mul_tan (-Real.cos az) el hcos
    · exact hasDerivAt_const_mul_tan (-Real.sin az) el hcos
    · exact hasDerivAt_const el (Real.sin az)
    · exact hasDerivAt_const el (Real.cos az)
  · intro k hk
    have hks : k = "IE" ∨ k = "AW" ∨ k = "AN" ∨ k = "TF" := by
      simpa [CTBendBasic8.elevation_derivative_phi] using hk
    rcases hks with rfl | rfl | rfl | rfl
    · exact hasDerivAt_const az (1 : ℝ)
    · exact hasDerivAt_neg_sin az
    · exact hasDerivAt_neg_cos az
    · exact hasDerivAt_const az (Real.cos el)
  · intro k hk
    have hks : k = "IE" ∨ k = "AW" ∨ k = "AN" ∨ k = "TF" := by
      simpa [CTBendBasic8.elevation_derivative_theta] using hk
    rcases hks with rfl | rfl | rfl | rfl
    · exact hasDerivAt_const el (1 : ℝ)
    · exact hasDerivAt_const el (-Real.sin az)
    · exact hasDerivAt_const el (-Real.cos az)
    · exact hasDerivAt_cos_fun el

/-- Witness for C2 at az_rad = 0, el_rad = 0, which is not an odd multiple
of pi/2: the NPAE coefficient of CTBendBasic8.azimuth_derivative_theta is
the derivative of the NPAE coefficient of azimuth_model_terms there. -/
theorem claim_C2_witness :
    (∀ n : ℤ, (0 : ℝ) ≠ (2 * n + 1) * Real.pi / 2)
  ∧ HasDerivAt (fun e => coeff (CTBendBasic8.azimuth_model_terms 0 e) "NPAE")
      (coeff (CTBendBasic8.azimuth_derivative_theta 0 0) "NPAE") 0 := by
  have hp : ∀ n : ℤ, (0 : ℝ) ≠ (2 * n + 1) * Real.pi / 2 := by
    intro n hn
    have h1 : (2 * (n : ℝ) + 1) * Real.pi = 0 := by linarith
    rcases mul_eq_zero.mp h1 with h2 | h2
    · have h3 : (2 * n + 1 : ℤ) = 0 := by exact_mod_cast h2
      omega
    · exact Real.pi_ne_zero h2
  refine ⟨hp, ?_⟩
  exact (claim_C2_derivative_consistency 0 0 hp).2.2.2.2.2.1 "NPAE"
    (by simp [CTBendBasic8.azimuth_derivative_theta])

/-- C7: for each registered variant, model_parameter_names equals the
sorted duplicate-free union of the key sets of azimuth_model_terms and
elevation_model_terms evaluated at (0, 0); the key sets do not depend on
the angle pair, so the union computed at any other pair (such as 37 and 52
degrees) gives the same list; and the property is a pure function of the
class, hence identical across repeated calls. -/
theorem claim_C7_model_parameter_names :
    (CTBendBasic4.model_parameter_names =
      np_unique (((CTBendBasic4.azimuth_model_terms 0 0).map Prod.fst)
        ++ ((CTBendBasic4.elevation_model_terms 0 0).map Prod.fst)))
  ∧ List.Sorted (fun a b : String => a ≤ b) CTBendBasic4.model_parameter_names
  ∧ CTBendBasic4.model_parameter_names.Nodup
  ∧ (∀ az el : ℝ, ∀ k : String,
      k ∈ CTBendBasic4.model_parameter_names ↔
        (k ∈ (CTBendBasic4.azimuth_model_terms az el).map Prod.fst ∨
         k ∈ (CTBendBasic4.elevation_model_terms az el).map Prod.fst))
  ∧ (∀ az el : ℝ,
      np_unique (((CTBendBasic4.azimuth_model_terms az el).map Prod.fst)
        ++ ((CTBendBasic4.elevation_model_terms az el).map Prod.fst)) =
      CTBendBasic4.model_parameter_names)
  ∧ (CTBendBasic8.model_parameter_names =
      np_unique (((CTBendBasic8.azimuth_model_terms 0 0).map Prod.fst)
        ++ ((CTBendBasic8.elevation_model_terms 0 0).map Prod.fst)))
  ∧ List.Sorted (fun a b : String => a ≤ b) CTBendBasic8.model_parameter_names
  ∧ CTBendBasic8.model_parameter_names.Nodup
  ∧ (∀ az el : ℝ, ∀ k : String,
      k ∈ CTBendBasic8.model_parameter_names ↔
        (k ∈ (CTBendBasic8.azimuth_model_terms az el).map Prod.fst ∨
         k ∈ (CTBendBasic8.elevation_model_terms az el).map Prod.fst))
  ∧ (∀ az el : ℝ,
      np_unique (((CTBendBasic8.azimuth_model_terms az el).map Prod.fst)
        ++ ((CTBendBasic8.elevation_model_terms az el).map Prod.fst)) =
      CTBendBasic8.model_parameter_names) := by
  have h4 : CTBendBasic4.model_parameter_names = ["AN", "AW", "IA", "IE"] :=
    by decide
  have h8 : CTBendBasic8.model_parameter_names =
      ["ACEC", "ACES", "AN", "AW", "IA", "IE", "NPAE", "TF"] := by decide
  refine ⟨rfl, ?_, ?_, ?_, ?_, rfl, ?_, ?_, ?_, ?_⟩
  · rw [h4]
    have hs : List.Sorted (fun a b : String => a.toList ≤ b.toList)
        ["AN", "AW", "IA", "IE"] := by decide
    exact hs.imp fun hab => String.le_iff_toList_le.mpr hab
  · rw [h4]; decide
  · intro az el k
    rw [h4,
      show (CTBendBasic4.azimuth_model_terms az el).map Prod.fst =
        ["IA", "AW", "AN"] from rfl,
      show (CTBendBasic4.elevation_model_terms az el).map Prod.fst =
        ["IE", "AW", "AN"] from rfl]
    simp only [List.mem_cons, List.not_mem_nil, or_false]
    tauto
  · intro az el; rfl
  · rw [h8]
    have hs : List.Sorted (fun a b : String => a.toList ≤ b.toList)
        ["ACEC", "ACES", "AN", "AW", "IA", "IE", "NPAE", "TF"] := by decide
    exact hs.imp fun hab => String.le_iff_toList_le.mpr hab
  · rw [h8]; decide
  · intro az el k
    rw [h8,
      show (CTBendBasic8.azimuth_model_terms az el).map Prod.fst =
        ["IA", "NPAE", "AW", "AN", "ACES", "ACEC"] from rfl,
      show (CTBendBasic8.elevation_model_terms az el).map Prod.fst =
        ["IE", "AW", "AN", "TF"] from rfl]
    simp only [List.mem_cons, List.not_mem_nil, or_false]
    tauto
  · intro az el; rfl

/-- C8: the nested payload shape with the mean mapping under "model" and
the flat shape with the mean mapping at top level resolve to the same flat
parameter mapping, an extra top-level key other than "model" and "mean"
does not change the resolution, and the two construction shapes therefore
give the same pointing corrections for every term function pair, input
pair and axis. -/
theorem claim_C8_payload_shapes (m : PyVal)
    (azT elT : ℝ → ℝ → List (String × ℝ)) (az el : ℝ) (altaz : String) :
    CTBendBase.model_parameters [("model", PyVal.dict [("mean", m)])] =
      Except.ok m
  ∧ CTBendBase.model_parameters [("mean", m)] = Except.ok m
  ∧ (∀ (k : String) (v : PyVal) (q : List (String × PyVal)),
      k ≠ "model" → k ≠ "mean" →
      CTBendBase.model_parameters ((k, v) :: q) =
        CTBendBase.model_parameters q)
  ∧ CTBendBase.pointing_correction azT elT
      [("model", PyVal.dict [("mean", m)])] az el altaz =
    CTBendBase.pointing_correction azT elT [("mean", m)] az el altaz := by
  refine ⟨rfl, rfl, ?_, ?_⟩
  · intro k v q hk1 hk2
    rw [CTBendBase.model_parameters, CTBendBase.model_parameters,
      show dictGet ((k, v) :: q) "model" = dictGet q "model" by
        rw [dictGet]; simp [hk1],
      show dictGet ((k, v) :: q) "mean" = dictGet q "mean" by
        rw [dictGet]; simp [hk2]]
  · rw [CTBendBase.pointing_correction, CTBendBase.pointing_correction,
      show CTBendBase.model_parameters
        [("model", PyVal.dict [("mean", m)])] = Except.ok m from rfl,
      show CTBendBase.model_parameters [("mean", m)] = Except.ok m from rfl]

/-- Witness for C8: a payload with the extra key "x" resolves like the
payload without it, and the nested and flat shapes of a one-parameter mean
mapping resolve identically. -/
theorem claim_C8_witness :
    ("x" : String) ≠ "model" ∧ ("x" : String) ≠ "mean"
  ∧ CTBendBase.model_parameters
      [("x", PyVal.num 7), ("mean", PyVal.dict [("IA", PyVal.num 1)])] =
    CTBendBase.model_parameters [("mean", PyVal.dict [("IA", PyVal.num 1)])]
  ∧ CTBendBase.model_parameters
      [("model", PyVal.dict [("mean", PyVal.dict [("IA", PyVal.num 1)])])] =
    CTBendBase.model_parameters
      [("mean", PyVal.dict [("IA", PyVal.num 1)])] := by
  have h := claim_C8_payload_shapes (PyVal.dict [("IA", PyVal.num 1)])
    (fun a b => []) (fun a b => []) 0 0 "azimuth"
  refine ⟨by decide, by decide, ?_, ?_⟩
  · exact h.2.2.1 "x" (PyVal.num 7)
      [("mean", PyVal.dict [("IA", PyVal.num 1)])] (by decide) (by decide)
  · rw [h.1, h.2.1]

/-- C5: construction stores the payload without validation, and when the
resolved parameter mapping lacks a key required by the evaluated term
function, the first delta_azimuth or delta_elevation call fails with a
KeyError naming the (first) missing key — the failure happens at
evaluation time; the constructor, being a total store, cannot raise. -/
theorem claim_C5_missing_parameter_error
    (azT elT : ℝ → ℝ → List (String × ℝ))
    (params d : List (String × PyVal)) (az el : ℝ)
    (hres : CTBendBase.model_parameters params = Except.ok (PyVal.dict d))
    (hnum : NumericDict d) :
    (CTBendBase.init params).parameters = params
  ∧ (∀ k, firstMissingKey d (azT (deg2rad az) (deg2rad el)) = some k →
      CTBendBase.delta_azimuth azT elT (CTBendBase.init params) az el =
        Except.error (PyErr.keyError k))
  ∧ (∀ k, firstMissingKey d (elT (deg2rad az) (deg2rad el)) = some k →
      CTBendBase.delta_elevation azT elT (CTBendBase.init params) az el =
        Except.error (PyErr.keyError k)) := by
  refine ⟨rfl, ?_, ?_⟩
  · intro k hk
    rw [CTBendBase.delta_azimuth,
      show (CTBendBase.init params).parameters = params from rfl,
      pointing_correction_azimuth_eq _ _ _ _ _ hres]
    exact weightedSumFrom_error_of_firstMissing hnum hk 0
  · intro k hk
    rw [CTBendBase.delta_elevation,
      show (CTBendBase.init params).parameters = params from rfl,
      pointing_correction_elevation_eq _ _ _ _ _ hres]
    exact weightedSumFrom_error_of_firstMissing hnum hk 0

/-- Witness for C5: a Basic-4 payload whose mean mapping holds only AW and
AN constructs fine (the stored payload is the given one) and the first
delta_azimuth call fails with a KeyError naming the missing key IA. -/
theorem claim_C5_witness :
    (CTBendBase.init
        [("mean", PyVal.dict [("AW", PyVal.num 1), ("AN", PyVal.num 2)])]
      ).parameters =
      [("mean", PyVal.dict [("AW", PyVal.num 1), ("AN", PyVal.num 2)])]
  ∧ CTBendBase.delta_azimuth CTBendBasic4.azimuth_model_terms
      CTBendBasic4.elevation_model_terms
      (CTBendBase.init
        [("mean", PyVal.dict [("AW", PyVal.num 1), ("AN", PyVal.num 2)])])
      0 0 =
    Except.error (PyErr.keyError "IA") := by
  have hnum : NumericDict [("AW", PyVal.num 1), ("AN", PyVal.num 2)] := by
    intro kv hkv
    simp only [List.mem_cons, List.not_mem_nil, or_false] at hkv
    rcases hkv with rfl | rfl
    · exact ⟨1, rfl⟩
    · exact ⟨2, rfl⟩
  have h := claim_C5_missing_parameter_error CTBendBasic4.azimuth_model_terms
    CTBendBasic4.elevation_model_terms
    [("mean", PyVal.dict [("AW", PyVal.num 1), ("AN", PyVal.num 2)])]
    [("AW", PyVal.num 1), ("AN", PyVal.num 2)] 0 0 rfl hnum
  exact ⟨h.1, h.2.1 "IA" rfl⟩

theorem weightedSumFrom_error_of_missing_member {d : List (String × PyVal)}
    {terms : List (String × ℝ)} {k : String}
    (hnum : NumericDict d) (hmem : k ∈ terms.map Prod.fst)
    (hk : dictGet d k = none) (acc : ℝ) :
    ∃ e, weightedSumFrom (PyVal.dict d) acc terms = Except.error e := by
  induction terms generalizing acc with
  | nil => simp at hmem
  | cons kc rest ih =>
    obtain ⟨k1, c1⟩ := kc
    cases hg : dictGet d k1 with
    | none =>
      exact ⟨PyErr.keyError k1,
        weightedSumFrom_cons_error acc c1 rest (paramLookup_missing hg)⟩
    | some v =>
      obtain ⟨x, _, hpl⟩ := paramLookup_present hnum hg
      rw [weightedSumFrom_cons_ok acc c1 rest hpl]
      have hk1 : k ≠ k1 := by
        rintro rfl
        rw [hg] at hk
        cases hk
      have hmem2 : k ∈ rest.map Prod.fst := by
        simp only [List.map_cons, List.mem_cons] at hmem
        rcases hmem with h | h
        · exact absurd h hk1
        · exact h
      exact ih hmem2 _

/-- C10: evaluating one axis needs only the term keys of that axis.  For
CTBendBasic4, delta_azimuth succeeds with the exact weighted sum whenever
IA, AW and AN are present (no condition on the elevation-only key IE), and
delta_elevation symmetrically needs no IA; an error is raised iff a key of
the term mapping of the requested axis is absent from the resolved mapping. -/
theorem claim_C10_axis_key_independence (self : CTBendState)
    (d : List (String × PyVal)) (az el : ℝ)
    (hres : CTBendBase.model_parameters self.parameters =
      Except.ok (PyVal.dict d))
    (hnum : NumericDict d) :
    (∀ ia aw an : ℝ,
      dictGet d "IA" = some (PyVal.num ia) →
      dictGet d "AW" = some (PyVal.num aw) →
      dictGet d "AN" = some (PyVal.num an) →
      CTBendBasic4.delta_azimuth self az el =
        Except.ok (ia * (-1)
          + aw * ((-Real.cos (deg2rad az)) * Real.tan (deg2rad el))
          + an * ((-Real.sin (deg2rad az)) * Real.tan (deg2rad el))))
  ∧ (∀ ie aw an : ℝ,
      dictGet d "IE" = some (PyVal.num ie) →
      dictGet d "AW" = some (PyVal.num aw) →
      dictGet d "AN" = some (PyVal.num an) →
      CTBendBasic4.delta_elevation self az el =
        Except.ok (ie * 1
          + aw * (-Real.sin (deg2rad az))
          + an * (-Real.cos (deg2rad az))))
  ∧ ((∃ e, CTBendBasic4.delta_azimuth self az el = Except.error e) ↔
      (dictGet d "IA" = none ∨ dictGet d "AW" = none ∨
       dictGet d "AN" = none))
  ∧ ((∃ e, CTBendBasic4.delta_elevation self az el = Except.error e) ↔
      (dictGet d "IE" = none ∨ dictGet d "AW" = none ∨
       dictGet d "AN" = none)) := by
  refine ⟨?_, ?_, ?_, ?_⟩
  · intro ia aw an hIA hAW hAN
    exact basic4_delta_azimuth_eval self az el ia aw an hres
      (paramLookup_num hIA) (paramLookup_num hAW) (paramLookup_num hAN)
  · intro ie aw an hIE hAW hAN
    exact basic4_delta_elevation_eval self az el ie aw an hres
      (paramLookup_num hIE) (paramLookup_num hAW) (paramLookup_num hAN)
  · constructor
    · rintro ⟨e, he⟩
      by_contra hcon
      push_neg at hcon
      obtain ⟨h1, h2, h3⟩ := hcon
      obtain ⟨v1, hv1⟩ := Option.ne_none_iff_exists.mp h1
      obtain ⟨v2, hv2⟩ := Option.ne_none_iff_exists.mp h2
      obtain ⟨v3, hv3⟩ := Option.ne_none_iff_exists.mp h3
      have hfm : firstMissingKey d
          (CTBendBasic4.azimuth_model_terms (deg2rad az) (deg2rad el)) =
          none := by
        simp [firstMissingKey, CTBendBasic4.azimuth_model_terms,
          hv1.symm, hv2.symm, hv3.symm]
      obtain ⟨s, hs⟩ := weightedSumFrom_ok_of_noMissing hnum hfm 0
      rw [CTBendBasic4.delta_azimuth, CTBendBase.delta_azimuth,
        pointing_correction_azimuth_eq _ _ _ _ _ hres, hs] at he
      cases he
    · intro hmiss
      have hmem : ∃ k ∈ (CTBendBasic4.azimuth_model_terms (deg2rad az)
          (deg2rad el)).map Prod.fst, dictGet d k = none := by
        rcases hmiss with h | h | h
        · exact ⟨"IA", by simp [CTBendBasic4.azimuth_model_terms], h⟩
        · exact ⟨"AW", by simp [CTBendBasic4.azimuth_model_terms], h⟩
        · exact ⟨"AN", by simp [CTBendBasic4.azimuth_model_terms], h⟩
      obtain ⟨k, hkmem, hknone⟩ := hmem
      obtain ⟨e, he⟩ :=
        weightedSumFrom_error_of_missing_member hnum hkmem hknone 0
      refine ⟨e, ?_⟩
      rw [CTBendBasic4.delta_azimuth, CTBendBase.delta_azimuth,
        pointing_correction_azimuth_eq _ _ _ _ _ hres, he]
  · constructor
    · rintro ⟨e, he⟩
      by_contra hcon
      push_neg at hcon
      obtain ⟨h1, h2, h3⟩ := hcon
      obtain ⟨v1, hv1⟩ := Option.ne_none_iff_exists.mp h1
      obtain ⟨v2, hv2⟩ := Option.ne_none_iff_exists.mp h2
      obtain ⟨v3, hv3⟩ := Option.ne_none_iff_exists.mp h3
      have hfm : firstMissingKey d
          (CTBendBasic4.elevation_model_terms (deg2rad az) (deg2rad el)) =
          none := by
        simp [firstMissingKey, CTBendBasic4.elevation_model_terms,
          hv1.symm, hv2.symm, hv3.symm]
      obtain ⟨s, hs⟩ := weightedSumFrom_ok_of_noMissing hnum hfm 0
      rw [CTBendBasic4.delta_elevation, CTBendBase.delta_elevation,
        pointing_correction_elevation_eq _ _ _ _ _ hres, hs] at he
      cases he
    · intro hmiss
      have hmem : ∃ k ∈ (CTBendBasic4.elevation_model_terms (deg2rad az)
          (deg2rad el)).map Prod.fst, dictGet d k = none := by
        rcases hmiss with h | h | h
        · exact ⟨"IE", by simp [CTBendBasic4.elevation_model_terms], h⟩
        · exact ⟨"AW", by simp [CTBendBasic4.elevation_model_terms], h⟩
        · exact ⟨"AN", by simp [CTBendBasic4.elevation_model_terms], h⟩
      obtain ⟨k, hkmem, hknone⟩ := hmem
      obtain ⟨e, he⟩ :=
        weightedSumFrom_error_of_missing_member hnum hkmem hknone 0
      refine ⟨e, ?_⟩
      rw [CTBendBasic4.delta_elevation, CTBendBase.delta_elevation,
        pointing_correction_elevation_eq _ _ _ _ _ hres, he]

/-- Witness for C10: with a mean mapping holding IA=1, AW=2, AN=3 but no
IE, delta_azimuth returns the weighted sum while delta_elevation raises. -/
theorem claim_C10_witness :
    CTBendBasic4.delta_azimuth
      (CTBendBase.init [("mean", PyVal.dict
        [("IA", PyVal.num 1), ("AW", PyVal.num 2), ("AN", PyVal.num 3)])])
      0 0 =
      Except.ok (1 * (-1)
        + 2 * ((-Real.cos (deg2rad 0)) * Real.tan (deg2rad 0))
        + 3 * ((-Real.sin (deg2rad 0)) * Real.tan (deg2rad 0)))
  ∧ (∃ e, CTBendBasic4.delta_elevation
      (CTBendBase.init [("mean", PyVal.dict
        [("IA", PyVal.num 1), ("AW", PyVal.num 2), ("AN", PyVal.num 3)])])
      0 0 = Except.error e) := by
  have hnum : NumericDict
      [("IA", PyVal.num 1), ("AW", PyVal.num 2), ("AN", PyVal.num 3)] := by
    intro kv hkv
    simp only [List.mem_cons, List.not_mem_nil, or_false] at hkv
    rcases hkv with rfl | rfl | rfl
    · exact ⟨1, rfl⟩
    · exact ⟨2, rfl⟩
    · exact ⟨3, rfl⟩
  have h := claim_C10_axis_key_independence
    (CTBendBase.init [("mean", PyVal.dict
      [("IA", PyVal.num 1), ("AW", PyVal.num 2), ("AN", PyVal.num 3)])])
    [("IA", PyVal.num 1), ("AW", PyVal.num 2), ("AN", PyVal.num 3)]
    0 0 rfl hnum
  exact ⟨h.1 1 2 3 rfl rfl rfl, h.2.2.2.mpr (Or.inl rfl)⟩

/-- Counterexample for C6: the non-variant name "CTBendBase" (the abstract
base class imported at the top of CTBend.py) makes the factory fail with a
TypeError from calling the abstract class, not with an unknown-model
(attribute lookup) error as the claim states for every non-variant name;
no model object is constructed either way. -/
theorem claim_C6_counterexample :
    bending_factory [("name", PyVal.str "CTBendBase")] =
      Except.error (PyErr.typeError "CTBendBase")
  ∧ (∀ s : String,
      (Except.error (PyErr.typeError "CTBendBase") : Except PyErr ModelObj) ≠
        Except.error (PyErr.attributeError s))
  ∧ (∀ m : ModelObj,
      bending_factory [("name", PyVal.str "CTBendBase")] ≠ Except.ok m) := by
  refine ⟨rfl, ?_, ?_⟩
  · intro s hs
    simp at hs
  · intro m hm
    rw [show bending_factory [("name", PyVal.str "CTBendBase")] =
      Except.error (PyErr.typeError "CTBendBase") from rfl] at hm
    cases hm

/-- C6 (amended): a descriptor whose name matches a registered variant
constructs that model with the full payload stored unchanged; any
non-variant name makes the factory fail with some error and no model
object.  The error kind follows the getattr lookup over the whole module
namespace: a non-variant name bound to a module attribute — a source-level
binding such as "CTBendBase" or an interpreter-injected attribute such as
"__name__" — fails with a TypeError raised by calling that attribute,
while a name getattr cannot resolve fails with the unknown-model
(attribute lookup) error naming it.  The last conjunct carries the
non-dunder hypothesis because the reserved dunder surface is a property of
the CPython version, not of this repository (see
ctbend_module_attribute_names); it is exercised at "Bogus" by the
witness. -/
theorem claim_C6_amended (p : List (String × PyVal)) (n : String)
    (hname : dictGet p "name" = some (PyVal.str n)) :
    (n = "CTBendBasic4" →
      bending_factory p = Except.ok (ModelObj.basic4 (CTBendBase.init p)))
  ∧ (n = "CTBendBasic8" →
      bending_factory p = Except.ok (ModelObj.basic8 (CTBendBase.init p)))
  ∧ (n ≠ "CTBendBasic4" → n ≠ "CTBendBasic8" →
      ∃ e, bending_factory p = Except.error e)
  ∧ (n ≠ "CTBendBasic4" → n ≠ "CTBendBasic8" →
      n ∈ ctbend_module_attribute_names →
      bending_factory p = Except.error (PyErr.typeError n))
  ∧ (n ∉ ctbend_module_attribute_names → isDunderName n = false →
      bending_factory p = Except.error (PyErr.attributeError n)) := by
  refine ⟨?_, ?_, ?_, ?_, ?_⟩
  · rintro rfl
    simp [bending_factory, hname]
  · rintro rfl
    have hne : ("CTBendBasic8" : String) ≠ "CTBendBasic4" := by decide
    simp [bending_factory, hname, hne]
  · intro h1 h2
    by_cases hmem : n ∈ ctbend_module_attribute_names
    · exact ⟨PyErr.typeError n, by simp [bending_factory, hname, h1, h2, hmem]⟩
    · exact ⟨PyErr.attributeError n,
        by simp [bending_factory, hname, h1, h2, hmem]⟩
  · intro h1 h2 hmem
    simp [bending_factory, hname, h1, h2, hmem]
  · intro hmem _
    have h1 : n ≠ "CTBendBasic4" := by
      rintro rfl
      exact hmem (by decide)
    have h2 : n ≠ "CTBendBasic8" := by
      rintro rfl
      exact hmem (by decide)
    simp [bending_factory, hname, h1, h2, hmem]

/-- Witness for C6 (amended): the unknown non-dunder name "Bogus" produces
the unknown-model attribute error naming it, the interpreter-injected
attribute name "__name__" and the source binding "CTBendBase" produce
TypeErrors, and the name "CTBendBasic4" constructs a Basic-4 model
carrying the full payload. -/
theorem claim_C6_witness :
    bending_factory [("name", PyVal.str "Bogus")] =
      Except.error (PyErr.attributeError "Bogus")
  ∧ bending_factory [("name", PyVal.str "__name__")] =
      Except.error (PyErr.typeError "__name__")
  ∧ bending_factory [("name", PyVal.str "CTBendBase")] =
      Except.error (PyErr.typeError "CTBendBase")
  ∧ bending_factory [("name", PyVal.str "CTBendBasic4")] =
      Except.ok (ModelObj.basic4
        (CTBendBase.init [("name", PyVal.str "CTBendBasic4")])) := by
  refine ⟨?_, ?_, ?_, ?_⟩
  · exact (claim_C6_amended [("name", PyVal.str "Bogus")] "Bogus"
      rfl).2.2.2.2 (by decide) (by decide)
  · exact (claim_C6_amended [("name", PyVal.str "__name__")] "__name__"
      rfl).2.2.2.1 (by decide) (by decide) (by decide)
  · exact (claim_C6_amended [("name", PyVal.str "CTBendBase")] "CTBendBase"
      rfl).2.2.2.1 (by decide) (by decide) (by decide)
  · exact (claim_C6_amended [("name", PyVal.str "CTBendBasic4")]
      "CTBendBasic4" rfl).1 rfl

theorem invert_go_fallback_error
    (minimize : String → ((ℝ × ℝ) → Except PyErr ℝ) → (ℝ × ℝ) →
      OptimizeResult)
    (loss : ℝ → ℝ → (ℝ × ℝ) → Except PyErr ℝ) (az el : ℝ)
    (rest : List (ℝ × ℝ))
    (h : (minimize "nelder-mead" (fun x => loss az el x) (az, el)).success =
      false) :
    CTBendBase.invert_go minimize loss ((az, el) :: rest) =
      Except.error
        (PyErr.attributeError "_telescope_pointing_inverter_loss_function") := by
  have hmem : "_telescope_pointing_inverter_loss_function" ∉
      ctbendbase_attribute_names := by decide
  rw [CTBendBase.invert_go]
  simp [h, hmem]

/-- C4: falsified by the source (code_bug).  When the primary Nelder-Mead
search reports non-success for a pair, the fallback line resolves the
attribute self._telescope_pointing_inverter_loss_function, which does not
exist on the instance (the loss is a local function of
invert_bending_model), so the call raises an AttributeError instead of
retrying L-BFGS-B with the same loss, and no best point is appended. -/
theorem claim_C4_fallback_attribute_error
    (minimize : String → ((ℝ × ℝ) → Except PyErr ℝ) → (ℝ × ℝ) →
      OptimizeResult)
    (deltaAz deltaEl : ℝ → ℝ → Except PyErr ℝ) (az el : ℝ)
    (azs els : List ℝ)
    (h : (minimize "nelder-mead"
      (fun x => CTBendBase.telescope_pointing_inverter_loss_function
        deltaAz deltaEl az el x) (az, el)).success = false) :
    CTBendBase.invert_bending_model minimize deltaAz deltaEl
      (az :: azs) (el :: els) =
    Except.error
      (PyErr.attributeError "_telescope_pointing_inverter_loss_function") := by
  rw [CTBendBase.invert_bending_model,
    show (az :: azs).zip (el :: els) = (az, el) :: azs.zip els from rfl]
  exact invert_go_fallback_error minimize _ az el _ h

/-- Witness for C4: a Basic-4 model and a minimize oracle whose Nelder-Mead
result reports success=False make the one-pair inversion raise the
AttributeError of the broken fallback reference. -/
theorem claim_C4_witness :
    CTBendBase.invert_bending_model
      (fun s l x => OptimizeResult.mk x.1 x.2 false)
      (CTBendBasic4.delta_azimuth (CTBendBase.init [("mean", PyVal.dict
        [("IA", PyVal.num 1), ("AW", PyVal.num 0), ("AN", PyVal.num 0),
         ("IE", PyVal.num 0)])]))
      (CTBendBasic4.delta_elevation (CTBendBase.init [("mean", PyVal.dict
        [("IA", PyVal.num 1), ("AW", PyVal.num 0), ("AN", PyVal.num 0),
         ("IE", PyVal.num 0)])]))
      [0] [0] =
    Except.error
      (PyErr.attributeError "_telescope_pointing_inverter_loss_function") :=
  claim_C4_fallback_attribute_error
    (fun s l x => OptimizeResult.mk x.1 x.2 false) _ _ 0 0 [] [] rfl

/-- C9: falsified by the source (code_bug).  When the primary search of the first pair reports non-success, the broken fallback reference raises an
AttributeError that aborts the whole batch: the remaining pairs are never
processed and no output sequences are produced, contradicting per-pair
isolation. -/
theorem claim_C9_nonconvergence_aborts_batch
    (minimize : String → ((ℝ × ℝ) → Except PyErr ℝ) → (ℝ × ℝ) →
      OptimizeResult)
    (deltaAz deltaEl : ℝ → ℝ → Except PyErr ℝ) (az1 el1 az2 el2 : ℝ)
    (h : (minimize "nelder-mead"
      (fun x => CTBendBase.telescope_pointing_inverter_loss_function
        deltaAz deltaEl az1 el1 x) (az1, el1)).success = false) :
    CTBendBase.invert_bending_model minimize deltaAz deltaEl
      [az1, az2] [el1, el2] =
    Except.error
      (PyErr.attributeError "_telescope_pointing_inverter_loss_function") := by
  rw [CTBendBase.invert_bending_model,
    show ([az1, az2].zip [el1, el2]) = [(az1, el1), (az2, el2)] from rfl]
  exact invert_go_fallback_error minimize _ az1 el1 [(az2, el2)] h

/-- Witness for C9: a two-pair batch whose first Nelder-Mead result reports
success=False aborts with the AttributeError, producing no result for the
second pair. -/
theorem claim_C9_witness :
    CTBendBase.invert_bending_model
      (fun s l x => OptimizeResult.mk x.1 x.2 false)
      (CTBendBasic4.delta_azimuth (CTBendBase.init [("mean", PyVal.dict
        [("IA", PyVal.num 1), ("AW", PyVal.num 0), ("AN", PyVal.num 0),
         ("IE", PyVal.num 0)])]))
      (CTBendBasic4.delta_elevation (CTBendBase.init [("mean", PyVal.dict
        [("IA", PyVal.num 1), ("AW", PyVal.num 0), ("AN", PyVal.num 0),
         ("IE", PyVal.num 0)])]))
      [0, 10] [0, 20] =
    Except.error
      (PyErr.attributeError "_telescope_pointing_inverter_loss_function") :=
  claim_C9_nonconvergence_aborts_batch
    (fun s l x => OptimizeResult.mk x.1 x.2 false) _ _ 0 0 10 20 rfl
